import Mathlib

/-!
Verification of the Easy3DS build script (`build.py`), a batch packager that
turns RPG Maker 2000/2003 game directories into 3DS CIA archives.

The development shallowly embeds the decision logic of `build.py`:
Python strings are Lean `String`s, Python `dict.get` lookups are association
lists, fallible Python operations (missing config keys, `None` attribute
access, filesystem errors) are `Except PyError`, and the outcomes of the
external toolchain and of filesystem copies are supplied by an explicit
oracle so that every control path of the source can be examined.  Machine
32-bit arithmetic in the fingerprint function is `Nat` with explicit
`% 2 ^ 32` where the source masks with `& 0xFFFFFFFF`.
-/

/-! ## Python string primitives

`str.strip()` and `str.startswith()` as used by the source, implemented
over `List Char` so that every use is kernel-computable. -/

/-- Whitespace trimming on a character list (both ends), modelling
Python's `str.strip()` with no arguments. -/
def pyStripList (l : List Char) : List Char :=
  ((l.dropWhile Char.isWhitespace).reverse.dropWhile Char.isWhitespace).reverse

/-- Python `s.strip()`. -/
def pyStrip (s : String) : String :=
  String.mk (pyStripList s.data)

/-- Python `s.startswith(pre)`. -/
def pyStartsWith (s pre : String) : Bool :=
  pre.data.isPrefixOf s.data

/-! ## Python exceptions

The exception classes that the modelled control paths of `build.py` can
raise.  A bare `except:` in the source catches all of them. -/

/-- The Python exceptions arising in the modelled code paths. -/
inductive PyError where
  /-- raised by `configparser` on a missing section or key subscript -/
  | keyError
  /-- raised by attribute access on `None` (e.g. `None.strip()`, `None.get(...)`) -/
  | attributeError
  /-- raised by subscripting `None` (e.g. `None['success']`) -/
  | typeError
  /-- raised by a failing filesystem operation (`copy_tree`, `rmtree`, ...) -/
  | osError
deriving DecidableEq, Repr

/-! ## Dictionaries

The RTP catalog built by `check_rtp` is a Python dict from RTP identifier
to directory path; modelled as an association list. -/

/-- Python `d.get(k)`: `none` when the key is missing. -/
def dictGet (d : List (String × String)) (k : String) : Option String :=
  (d.find? (fun p => p.1 == k)).map (fun p => p.2)

/-- Python truthiness of `d.get(k)`: `False` for a missing key and for an
empty-string value (the catalog only ever stores non-empty paths). -/
def truthyGet (d : List (String × String)) (k : String) : Bool :=
  match dictGet d k with
  | none => false
  | some s => s != ""

/-! ## Fingerprinting (`crc`, lines 392-399)

`crc` streams the file line by line, folding each chunk into a running
CRC-32 via `zlib.crc32(line, prev)`, and renders the result with
`'{:08X}'.format(prev & 0xFFFFFFFF)`. -/

/-- The reflected CRC-32 polynomial used by `zlib.crc32`. -/
def crcPoly : Nat := 0xEDB88320

/-- One bit step of the reflected CRC-32 register update. -/
def crcBitStep (r : Nat) : Nat :=
  if r % 2 == 1 then (r / 2) ^^^ crcPoly else r / 2

/-- Absorb one byte into the CRC-32 register. -/
def crcByteStep (r b : Nat) : Nat :=
  crcBitStep^[8] (r ^^^ (b % 256))

/-- `zlib.crc32(data, init)`: pre- and post-conditioned register fold. -/
def crc32 (init : Nat) (data : List Nat) : Nat :=
  (data.foldl crcByteStep (init ^^^ 0xFFFFFFFF)) ^^^ 0xFFFFFFFF

/-- Uppercase hexadecimal digit for a value below 16. -/
def hexDigitChar (n : Nat) : Char :=
  if n < 10 then Char.ofNat (48 + n) else Char.ofNat (55 + n)

/-- `'{:08X}'.format(n)` for `n < 2 ^ 32`: eight zero-padded uppercase
hex digits, most significant first. -/
def toHex8 (n : Nat) : String :=
  String.mk (((List.range 8).reverse).map (fun i => hexDigitChar (n / 16 ^ i % 16)))

/-- `crc(file)` (lines 392-399): the file content arrives as the list of
chunks produced by line-based iteration; `prev` starts at 0, each chunk is
folded in with `zlib.crc32(line, prev)`, and the result is masked with
`& 0xFFFFFFFF` (that is, `% 2 ^ 32`) and rendered as 8 uppercase hex digits. -/
def crc_file (chunks : List (List Nat)) : String :=
  toHex8 ((chunks.foldl crc32 0) % 2 ^ 32)

/-- A character is an uppercase hexadecimal digit (`0`-`9`, `A`-`F`). -/
def isUpperHexDigit (c : Char) : Bool :=
  c.isDigit || (decide ('A' ≤ c) && decide (c ≤ 'F'))

/-! ## RTP version heuristics (`get_rm_version`, `get_rtp_fallback`) -/

/-- `get_rm_version` (lines 402-416): the executable is described by
`none` (file absent) or `some size` (its size in bytes).  Absent or larger
than 800000 bytes means RPG Maker 2003; otherwise 2000. -/
def get_rm_version (exeSize : Option Nat) : Nat :=
  match exeSize with
  | none => 2003
  | some size => if size > 800000 then 2003 else 2000

/-- The family computation at the head of `get_rtp_fallback`
(lines 423-434).  The source first sets `wanted` from the `2000-en` test
and then from the `2003-en` test (the later assignment wins, so a
`2003-en` match dominates), and falls back to the executable-size
heuristic when neither matched. -/
def rtpFamily (wanted_rtp : String) (exeSize : Option Nat) : String :=
  if pyStartsWith wanted_rtp "2003-en" then "2003-en"
  else if pyStartsWith wanted_rtp "2000-en" then "2000-en"
  else if get_rm_version exeSize == 2000 then "2000-en" else "2003-en"

/-- The fixed preference order of English RPG Maker 2000 RTP variants. -/
def pref2000en : List String := ["2000-en-don-miguel", "2000-en-official"]

/-- The fixed preference order of English RPG Maker 2003 RTP variants. -/
def pref2003en : List String := ["2003-en-rpg-advocate", "2003-en-maker-universe", "2003-en-official"]

/-- The preference list of a family name. -/
def familyPref (fam : String) : List String :=
  if fam == "2000-en" then pref2000en
  else if fam == "2003-en" then pref2003en
  else []

/-- `get_rtp_fallback` (lines 419-444): choose the first catalog-present
variant of the resolved family, in source order; `False` (here `none`)
when no variant is available.  The source's `2000-en` branch falls through
to the `2003-en` test when no variant matched, but `wanted` cannot equal
both strings, so the if-chain below is equivalent. -/
def get_rtp_fallback (rtps : List (String × String)) (wanted_rtp : String)
    (exeSize : Option Nat) : Option String :=
  if rtpFamily wanted_rtp exeSize == "2000-en" then
    if truthyGet rtps "2000-en-don-miguel" then some "2000-en-don-miguel"
    else if truthyGet rtps "2000-en-official" then some "2000-en-official"
    else none
  else if rtpFamily wanted_rtp exeSize == "2003-en" then
    if truthyGet rtps "2003-en-rpg-advocate" then some "2003-en-rpg-advocate"
    else if truthyGet rtps "2003-en-maker-universe" then some "2003-en-maker-universe"
    else if truthyGet rtps "2003-en-official" then some "2003-en-official"
    else none
  else none

/-! ## Catalog construction (`check_rtp`, lines 346-361)

`check_rtp` scans the configured RTP root.  A missing root produces only a
warning and a bare `return` (that is, `None`); otherwise the immediate
subdirectories become the catalog, with a warning when it is empty. -/

/-- `check_rtp`: `rootExists` is `os.path.isdir(rtp)`, `entries` the
directory listing paired with each entry's `os.path.isdir` result.
Returns the catalog (or `none`) together with whether a warning was
printed. -/
def check_rtp (rootExists : Bool) (entries : List (String × Bool)) (rtpPath : String) :
    Option (List (String × String)) × Bool :=
  if !rootExists then (none, true)
  else
    (some ((entries.filter (fun e => e.2)).map (fun e => (e.1, rtpPath ++ "/" ++ e.1))),
     decide ((entries.filter (fun e => e.2)).length = 0))

/-! ## Metadata validation (`check_3ds_info`, lines 318-343)

The `[metadata]` section of `gameinfo.cfg` as a record of optional raw
string values.  `configparser` subscripting (`c['cia_id']`) raises
`KeyError` on a missing key, while `c.get('author')` returns `None`. -/

/-- The `[metadata]` section of a game's `gameinfo.cfg`, each key either
absent or present with its raw string value. -/
structure GameInfo where
  cia_id : Option String
  title : Option String
  author : Option String
  release : Option String
  rtp : Option String
deriving DecidableEq, Repr

/-- Validity of `int(id, 16)` in Python 3: optional surrounding
whitespace, an optional single sign, an optional `0x`/`0X` base marker
(optionally followed by one underscore), then hex digits in which single
underscores may stand between digits. -/
def isHexDigitChar (c : Char) : Bool :=
  c.isDigit || (decide ('a' ≤ c) && decide (c ≤ 'f')) || (decide ('A' ≤ c) && decide (c ≤ 'F'))

/-- Digit-tail check: digits with single interior underscores. -/
def pyHexTail : List Char → Bool
  | [] => true
  | ['_'] => false
  | '_' :: c :: rest => isHexDigitChar c && pyHexTail rest
  | c :: rest => isHexDigitChar c && pyHexTail rest

/-- A non-empty run of hex digits with single interior underscores. -/
def pyDigitsList : List Char → Bool
  | [] => false
  | c :: rest => isHexDigitChar c && pyHexTail rest

/-- After the `0x` marker one leading underscore is permitted. -/
def pyAfterBaseMarker : List Char → Bool
  | '_' :: rest => pyDigitsList rest
  | l => pyDigitsList l

/-- After the optional sign: optional `0x`/`0X` marker, then digits. -/
def pyAfterSign : List Char → Bool
  | '0' :: 'x' :: rest => pyAfterBaseMarker rest
  | '0' :: 'X' :: rest => pyAfterBaseMarker rest
  | l => pyDigitsList l

/-- Whether `int(s, 16)` succeeds (no `ValueError`). -/
def pyIntHexValid (s : String) : Bool :=
  match pyStripList s.data with
  | '+' :: rest => pyAfterSign rest
  | '-' :: rest => pyAfterSign rest
  | l => pyAfterSign l

/-- The itemised diagnostic built by `report_no_info` (lines 479-488):
one entry per invalid field, in source order, falsy entries filtered out. -/
def report_no_info_items (valid_id_length valid_id valid_title valid_author : Bool) :
    List String :=
  ([if !valid_id then some "invalid ID (must be hexadecimal)" else none,
    if !valid_id_length then some "invalid ID length (must be 6 characters)" else none,
    if !valid_title then some "invalid title" else none,
    if !valid_author then some "invalid author" else none]).filterMap id

/-- Lines 323-325: `c.get('author')` yields `None` on a missing key; a
falsy author (absent or empty) is replaced by the `"Unknown author"`
sentinel. -/
def authorOf (a : Option String) : String :=
  if a.getD "" == "" then "Unknown author" else a.getD ""

/-- `check_3ds_info` (lines 318-343).  `c['cia_id']` and `c['title']`
raise `KeyError` when absent; the author silently defaults via
`authorOf`.  On success the function returns `True` without printing;
otherwise every failed check is reported at once via `report_no_info`. -/
def check_3ds_info (info : GameInfo) : Except PyError (Bool × List String) :=
  match info.cia_id with
  | none => Except.error PyError.keyError
  | some idv =>
    match info.title with
    | none => Except.error PyError.keyError
    | some title =>
      if (idv.data.length == 6) && pyIntHexValid idv && (title != "") && (authorOf info.author != "") then
        Except.ok (true, [])
      else
        Except.ok (false, report_no_info_items (idv.data.length == 6) (pyIntHexValid idv)
          (title != "") (authorOf info.author != ""))

/-! ## Default-asset fingerprints -/

/-- The four asset fingerprints of one game (or of the bundled default
assets), keyed `audio` / `banner` / `icon` / `info` as in the source. -/
structure AssetCrcs where
  audio : String
  banner : String
  icon : String
  info : String
deriving DecidableEq, Repr

/-- Lookup into an `AssetCrcs` by the source's dictionary key. -/
def crcLookup (c : AssetCrcs) : String → String
  | "audio" => c.audio
  | "banner" => c.banner
  | "icon" => c.icon
  | _ => c.info

/-- `default_items` (line 124): the asset keys whose fingerprint equals
the corresponding default fingerprint, in dictionary order. -/
def default_items (crcs defaults : AssetCrcs) : List String :=
  (["audio", "banner", "icon", "info"]).filter
    (fun k => crcLookup crcs k == crcLookup defaults k)

/-! ## The per-game build (`build_cia`, lines 78-172)

External effects are made explicit: a `ToolOracle` fixes the outcome of
every subprocess invocation and filesystem operation of the attempt, a
`Warning` trace records the `report_*` calls, and the scratch-directory
contents are tracked as a list of labels. -/

/-- Outcomes of the external operations of one build attempt. -/
structure ToolOracle where
  /-- `bannertool makebanner` exits 0 -/
  makebanner : Bool
  /-- `bannertool makesmdh` exits 0 -/
  makesmdh : Bool
  /-- `3dstool -cvtf romfs` exits 0 -/
  romfs : Bool
  /-- the spec template read/substitute/write succeeds -/
  rsf : Bool
  /-- `makerom` exits 0 (writes the output archive) -/
  makerom : Bool
  /-- `copy_tree` of the RTP into the staging tree succeeds -/
  copyRtpOk : Bool
  /-- `copy_tree` of the game into the staging tree succeeds -/
  copyGameOk : Bool
  /-- `clean_up_tmp_files` succeeds -/
  cleanupOk : Bool
deriving DecidableEq, Repr

/-- The warnings printed on the modelled paths of `build_cia`. -/
inductive Warning where
  /-- `report_rtp_needed` (line 95) -/
  | rtpNeeded
  /-- `report_rtp_fallback` (line 101) -/
  | rtpFallback (wanted fallback : String)
  /-- `report_no_rtp_for_game` (line 104) -/
  | noRtpForGame
  /-- `report_default_assets` (line 126) -/
  | defaultAssets (items : List String)
deriving DecidableEq, Repr

/-- The dictionary returned by `make_cia_file` on success (lines 55-63). -/
structure CiaResult where
  success : Bool
  id : String
  safe_name : String
  title : String
  author : String
  release_date : String
  name : String
deriving DecidableEq, Repr

/-- The result dictionary of `build_cia` (lines 105-110 and 164-172).
The reporting-only `dir` / `target` path fields are omitted; `skip` is
present (and `True`) only on the no-usable-RTP return in the source,
modelled here as an always-present flag. -/
structure BuildOutcome where
  success : Bool
  skip : Bool
  game : Option CiaResult
deriving DecidableEq, Repr

/-- Decidable equality for `Except`, needed to evaluate run records. -/
instance {ε : Type u} {α : Type v} [DecidableEq ε] [DecidableEq α] :
    DecidableEq (Except ε α)
  | Except.ok x, Except.ok y =>
    if h : x = y then isTrue (congrArg Except.ok h)
    else isFalse (fun hc => h (Except.ok.inj hc))
  | Except.error x, Except.error y =>
    if h : x = y then isTrue (congrArg Except.error h)
    else isFalse (fun hc => h (Except.error.inj hc))
  | Except.ok _, Except.error _ => isFalse (fun hc => Except.noConfusion hc)
  | Except.error _, Except.ok _ => isFalse (fun hc => Except.noConfusion hc)

/-- Observable record of one `build_cia` call: the returned dictionary or
the escaping exception, the warning trace, the final contents of the
scratch directory, and bookkeeping flags used by the theorems. -/
structure BuildCiaRun where
  result : Except PyError BuildOutcome
  warnings : List Warning
  /-- labels of files/directories under the scratch root when the call ends -/
  scratch : List String
  /-- whether the staging `try` block (lines 131-158) was entered -/
  stagingEntered : Bool
  /-- whether `copy_rtp_to_tmp` copied runtime-package files (line 270) -/
  rtpCopied : Bool
  /-- the RTP identifier in `wanted_rtp` after resolution; `none` on the skip
  and missing-catalog paths -/
  resolvedRtp : Option String
  /-- whether `makerom` ran successfully and wrote the output archive -/
  archiveWritten : Bool
deriving DecidableEq, Repr

/-- `make_cia_file` (lines 31-63): the five toolchain steps in order,
short-circuiting on the first failure (where the source returns the
`None` produced by `report_cia_error`).  Steps 1-4 write intermediate
files into the scratch directory; step 5 writes the archive to the output
directory.  Returns the result, the scratch contents, and whether the
archive was written. -/
def make_cia_file (o : ToolOracle) (idv title author release nm safe_name : String)
    (scratch : List String) : Option CiaResult × List String × Bool :=
  if !o.makebanner then (none, scratch, false)
  else
    let s1 := scratch ++ ["banner.bin"]
    if !o.makesmdh then (none, s1, false)
    else
      let s2 := s1 ++ ["icon.bin"]
      if !o.romfs then (none, s2, false)
      else
        let s3 := s2 ++ ["romfs.bin"]
        if !o.rsf then (none, s3, false)
        else
          let s4 := s3 ++ ["spec.rsf"]
          if !o.makerom then (none, s4, false)
          else
            (some { success := true, id := idv, safe_name := safe_name, title := title,
                    author := author, release_date := release, name := nm },
             s4, true)

/-- The body of the `try` block of `build_cia` (lines 131-158):
`make_game_tmp`, `copy_rtp_to_tmp` (which copies only when the catalog
holds the resolved identifier), `copy_game_to_tmp`, the
`info.get('author').strip()` read (an `AttributeError` when the key is
absent, since `None` has no `strip`), the `cia_id`/`title` argument reads
likewise, and finally `make_cia_file`.  Returns the `try` outcome, the
scratch contents, whether RTP files were copied, and whether the archive
was written.  A failing `copy_tree` is modelled as raising before adding
its label. -/
def stageAndMake (o : ToolOracle) (info : GameInfo) (wanted : String)
    (rtps : List (String × String)) (nm : String) :
    Except PyError (Option CiaResult) × List String × Bool × Bool :=
  if truthyGet rtps wanted && !o.copyRtpOk then
    (Except.error PyError.osError, [], false, false)
  else
    let s0 := if truthyGet rtps wanted then [nm ++ "/(rtp files)"] else []
    let copied := truthyGet rtps wanted
    if !o.copyGameOk then (Except.error PyError.osError, s0, copied, false)
    else
      let s1 := s0 ++ [nm ++ "/(game files)"]
      match info.author with
      | none => (Except.error PyError.attributeError, s1, copied, false)
      | some a =>
        match info.cia_id with
        | none => (Except.error PyError.attributeError, s1, copied, false)
        | some cid =>
          match info.title with
          | none => (Except.error PyError.attributeError, s1, copied, false)
          | some t =>
            let author := pyStrip a
            let author2 := if author != "" then author else "Unknown author"
            match make_cia_file o (pyStrip cid) (pyStrip t) author2
                (pyStrip (info.release.getD "")) nm nm s1 with
            | (g, s2, arch) => (Except.ok g, s2, copied, arch)

/-- Lines 130-162 of `build_cia`: run the `try` block, convert any caught
exception (including the `TypeError` of `game['success']` when
`make_cia_file` returned `None`) into `success = False`, then run
`clean_up_tmp_files` in the `finally`.  When cleanup itself fails its
exception propagates, discarding the computed return value, and the
scratch directory keeps its contents. -/
def buildCiaStage (o : ToolOracle) (info : GameInfo) (wanted : String)
    (rtps : List (String × String)) (ws : List Warning) (nm : String) : BuildCiaRun :=
  match stageAndMake o info wanted rtps nm with
  | (tryRes, scratch, copied, arch) =>
    let game : Option CiaResult :=
      match tryRes with
      | Except.ok (some g) => some g
      | _ => none
    let succ : Bool :=
      match tryRes with
      | Except.ok (some g) => g.success
      | _ => false
    if o.cleanupOk then
      { result := Except.ok { success := succ, skip := false, game := game },
        warnings := ws, scratch := [], stagingEntered := true, rtpCopied := copied,
        resolvedRtp := some wanted, archiveWritten := arch }
    else
      { result := Except.error PyError.osError,
        warnings := ws, scratch := scratch, stagingEntered := true, rtpCopied := copied,
        resolvedRtp := some wanted, archiveWritten := arch }

/-- `wanted_rtp` as computed on line 91: `info.get('rtp', '').strip()`. -/
def wantedRtpOf (info : GameInfo) : String :=
  pyStrip (info.rtp.getD "")

/-- `full_package_flag` as computed on line 89:
`rpg_rt.get('FullPackageFlag', '').strip() == '1'`. -/
def fullPackageOf (fpfRaw : Option String) : Bool :=
  pyStrip (fpfRaw.getD "") == "1"

/-- The warning of line 94: a game without `FullPackageFlag` built under
`--no-rtp`. -/
def preWarnings (full_package_flag no_rtp : Bool) : List Warning :=
  if !full_package_flag && no_rtp then [Warning.rtpNeeded] else []

/-- Lines 93-110: the RTP availability check and fallback resolution on a
non-`None` catalog.  `Sum.inl wanted` continues the build with the
resolved identifier; `Sum.inr ()` is the skip return. -/
def resolveRtp (rtps : List (String × String)) (wanted_rtp : String)
    (no_rtp full_package_flag : Bool) (exeSize : Option Nat) :
    (String ⊕ Unit) × List Warning :=
  if !truthyGet rtps wanted_rtp && !no_rtp && !full_package_flag then
    match get_rtp_fallback rtps wanted_rtp exeSize with
    | some fb =>
      (Sum.inl fb, preWarnings full_package_flag no_rtp ++ [Warning.rtpFallback wanted_rtp fb])
    | none =>
      (Sum.inr (), preWarnings full_package_flag no_rtp ++ [Warning.noRtpForGame])
  else (Sum.inl wanted_rtp, preWarnings full_package_flag no_rtp)

/-- The warning of lines 125-126: `report_default_assets` fires when more
than one asset fingerprint matches a default. -/
def defaultWarns (ws : List Warning) (crcs defaults : AssetCrcs) : List Warning :=
  if (default_items crcs defaults).length > 1 then
    ws ++ [Warning.defaultAssets (default_items crcs defaults)]
  else ws

/-- Lines 112-172: after resolution, compare the game's asset
fingerprints to the defaults (warning when more than one matches, build
failure when the metadata file itself matches), then stage and build. -/
def afterResolve (o : ToolOracle) (info : GameInfo) (wanted : String)
    (rtps : List (String × String)) (ws : List Warning) (crcs defaults : AssetCrcs)
    (nm : String) : BuildCiaRun :=
  if (default_items crcs defaults).contains "info" then
    { result := Except.ok { success := false, skip := false, game := none },
      warnings := defaultWarns ws crcs defaults, scratch := [], stagingEntered := false,
      rtpCopied := false, resolvedRtp := some wanted, archiveWritten := false }
  else
    buildCiaStage o info wanted rtps (defaultWarns ws crcs defaults) nm

/-- `build_cia` (lines 78-172).  `rpgRt` is the result of line 88's
`get_config(game_path + '/RPG_RT.ini')['RPG_RT']`: `none` when the
subscript raises `KeyError` — the section is missing, or only a
lowercase `rpg_rt.ini` exists, which `is_game` accepts but the
case-sensitive `configparser.read` silently skips, yielding an empty
parser — and `some fpfRaw` when it succeeds, with `fpfRaw` the raw
`FullPackageFlag` value.  The raise happens before the warning of
line 94 and before any other work, and it is uncaught.  `info` is the
`gameinfo.cfg` `[metadata]` section read on line 90, which in the batch
flow has already been validated by `check_3ds_info`.  On a `None`
catalog the availability check of line 98 evaluates
`rtp_dirs.get(wanted_rtp)` first and raises `AttributeError` before any
flag can short-circuit it. -/
def build_cia (rpgRt : Option (Option String)) (info : GameInfo) (no_rtp : Bool)
    (rtp_dirs : Option (List (String × String))) (crcs defaults : AssetCrcs)
    (exeSize : Option Nat) (o : ToolOracle) (nm : String) : BuildCiaRun :=
  match rpgRt with
  | none =>
    { result := Except.error PyError.keyError,
      warnings := [], scratch := [], stagingEntered := false, rtpCopied := false,
      resolvedRtp := none, archiveWritten := false }
  | some fpfRaw =>
    match rtp_dirs with
    | none =>
      { result := Except.error PyError.attributeError,
        warnings := preWarnings (fullPackageOf fpfRaw) no_rtp,
        scratch := [], stagingEntered := false, rtpCopied := false,
        resolvedRtp := none, archiveWritten := false }
    | some rtps =>
      match resolveRtp rtps (wantedRtpOf info) no_rtp (fullPackageOf fpfRaw) exeSize with
      | (Sum.inr _, ws) =>
        { result := Except.ok { success := false, skip := true, game := none },
          warnings := ws, scratch := [], stagingEntered := false, rtpCopied := false,
          resolvedRtp := none, archiveWritten := false }
      | (Sum.inl wanted, ws) =>
        afterResolve o info wanted rtps ws crcs defaults nm

/-! ## The batch loop (`build` lines 201-236, `build_dir` lines 238-258)

One candidate of the batch directory, with the facts `build` inspects.
The single-game branch of `build_dir` (lines 243-250) exits the process
and is outside the batch claims. -/

/-- One batch candidate directory and the environment of its attempt. -/
structure Candidate where
  /-- `os.path.isdir(game_path)` -/
  isDir : Bool
  /-- `is_game(game_path)`: an `RPG_RT.ini` exists (case-insensitive) -/
  isGame : Bool
  hasAudio : Bool
  hasBanner : Bool
  hasIcon : Bool
  hasInfo : Bool
  /-- the `[RPG_RT]` section of the case-sensitively read `RPG_RT.ini`:
  `none` when absent (its subscript on line 88 raises `KeyError`),
  otherwise the raw `FullPackageFlag` value -/
  rpgRt : Option (Option String)
  /-- the `[metadata]` section of `gameinfo.cfg`: `none` when absent
  (its subscript on line 320 raises `KeyError`) -/
  meta : Option GameInfo
  crcs : AssetCrcs
  /-- size of `RPG_RT.exe`, `none` when absent -/
  exeSize : Option Nat
  oracle : ToolOracle
  name : String
deriving Repr

/-- `build` (lines 201-236): classify, validate assets and metadata, then
run `build_cia`.  The early `return`s of the source are `Except.ok none`;
any exception propagates to the caller uncaught.  `check_3ds_info`'s
first action (line 320) subscripts the `[metadata]` section, raising
`KeyError` when it is absent; that read is modelled here at the call
site so that `check_3ds_info` itself carries the per-field logic of
lines 321-343, and the same section is what line 90 hands to
`build_cia`. -/
def build (defaults : AssetCrcs) (no_rtp : Bool)
    (rtp_dirs : Option (List (String × String))) (c : Candidate) :
    Except PyError (Option BuildOutcome) :=
  if !c.isDir then Except.ok none
  else if !c.isGame then Except.ok none
  else if !(c.hasAudio && c.hasBanner && c.hasIcon && c.hasInfo) then Except.ok none
  else
    match c.meta with
    | none => Except.error PyError.keyError
    | some info =>
      match check_3ds_info info with
      | Except.error e => Except.error e
      | Except.ok (valid, _) =>
        if !valid then Except.ok none
        else
          match (build_cia c.rpgRt info no_rtp rtp_dirs c.crcs defaults c.exeSize
              c.oracle c.name).result with
          | Except.error e => Except.error e
          | Except.ok out => Except.ok (some out)

/-- Whether one candidate's `build` call returned a successful outcome
(the `result and result['success']` test of line 255). -/
def buildSucceeded (defaults : AssetCrcs) (no_rtp : Bool)
    (rtp_dirs : Option (List (String × String))) (c : Candidate) : Bool :=
  match build defaults no_rtp rtp_dirs c with
  | Except.ok (some r) => r.success
  | _ => false

/-- The batch loop of `build_dir` (lines 252-258): process the listed
candidates in order, counting successes for `report_builds_done`.  There
is no exception handler around the loop body, so an escaping exception
aborts the whole batch. -/
def build_dir_batch (defaults : AssetCrcs) (no_rtp : Bool)
    (rtp_dirs : Option (List (String × String))) :
    List Candidate → Nat → Except PyError Nat
  | [], count => Except.ok count
  | c :: rest, count =>
    match build defaults no_rtp rtp_dirs c with
    | Except.error e => Except.error e
    | Except.ok r =>
      build_dir_batch defaults no_rtp rtp_dirs rest
        (if (r.map (fun out => out.success)).getD false then count + 1 else count)

/-! ## Shared concrete instances used by the witnesses -/

/-- Every external operation of an attempt succeeds. -/
def oracleAllOk : ToolOracle := ⟨true, true, true, true, true, true, true, true⟩

/-- All operations succeed except the final `clean_up_tmp_files`. -/
def oracleNoCleanup : ToolOracle := ⟨true, true, true, true, true, true, true, false⟩

/-- All operations succeed except the final `makerom` invocation. -/
def oracleMakeromFails : ToolOracle := ⟨true, true, true, true, false, true, true, true⟩

/-- Game asset fingerprints that match none of the defaults. -/
def crcsDistinct : AssetCrcs := ⟨"11111111", "22222222", "33333333", "44444444"⟩

/-- The fingerprints of the repository's bundled default assets. -/
def crcsDefault : AssetCrcs := ⟨"AAAAAAAA", "BBBBBBBB", "CCCCCCCC", "DDDDDDDD"⟩

/-! ## Fingerprinting lemmas -/

/-- Double XOR by the same mask is the identity. -/
theorem xorCancel (x m : Nat) : (x ^^^ m) ^^^ m = x := by
  rw [Nat.xor_assoc, Nat.xor_self, Nat.xor_zero]

/-- The running-checksum contract of `zlib.crc32`: feeding a second chunk
with the previous result as the start value continues the checksum. -/
theorem crc32_append (init : Nat) (a b : List Nat) :
    crc32 init (a ++ b) = crc32 (crc32 init a) b := by
  unfold crc32
  rw [List.foldl_append, xorCancel]

/-- Folding a list of chunks through `crc32` from 0 equals one `crc32`
pass over the concatenation. -/
theorem crc32_foldl_join (chunks : List (List Nat)) :
    ∀ init, chunks.foldl crc32 init = crc32 init chunks.flatten := by
  induction chunks with
  | nil => intro init; simp [crc32, xorCancel]
  | cons c cs ih =>
    intro init
    rw [List.foldl_cons, ih, List.flatten_cons, crc32_append]

/-- `toHex8` always renders exactly eight characters. -/
theorem toHex8_length (n : Nat) : (toHex8 n).data.length = 8 := by
  simp [toHex8]

/-- Hex digits below 16 render as uppercase hexadecimal characters. -/
theorem hexDigitChar_upper : ∀ n < 16, isUpperHexDigit (hexDigitChar n) = true := by
  decide

/-- Every character of a `toHex8` rendering is uppercase hexadecimal. -/
theorem toHex8_chars (n : Nat) : ∀ ch ∈ (toHex8 n).data, isUpperHexDigit ch = true := by
  intro ch hch
  simp only [toHex8, List.mem_map, List.mem_reverse, List.mem_range] at hch
  obtain ⟨i, _, rfl⟩ := hch
  exact hexDigitChar_upper _ (Nat.mod_lt _ (by norm_num))

/-- Claim C9: for every readable file, `crc` is deterministic (equal
content gives equal output), its output is exactly 8 uppercase
hexadecimal characters, and folding the file chunk by chunk into the
running 32-bit checksum equals fingerprinting the whole content at once. -/
theorem c9_fingerprint_properties :
    (∀ c1 c2 : List (List Nat), c1 = c2 → crc_file c1 = crc_file c2) ∧
    (∀ chunks : List (List Nat), (crc_file chunks).data.length = 8 ∧
      ∀ ch ∈ (crc_file chunks).data, isUpperHexDigit ch = true) ∧
    (∀ chunks : List (List Nat), crc_file chunks = crc_file [chunks.flatten]) := by
  refine ⟨fun c1 c2 h => by rw [h], fun chunks => ⟨toHex8_length _, toHex8_chars _⟩,
    fun chunks => ?_⟩
  unfold crc_file
  rw [crc32_foldl_join]
  rfl

/-- Witness for C9 at a concrete five-byte file split into two chunks. -/
theorem c9_fingerprint_witness :
    crc_file [[104, 101], [108, 108, 111]] = crc_file [[104, 101, 108, 108, 111]] ∧
    (crc_file [[104, 101], [108, 108, 111]]).data.length = 8 := by
  have h := c9_fingerprint_properties.2.2 [[104, 101], [108, 108, 111]]
  have hj : [[104, 101], [108, 108, 111]].flatten = [104, 101, 108, 108, 111] := rfl
  rw [hj] at h
  exact ⟨h, (c9_fingerprint_properties.2.1 [[104, 101], [108, 108, 111]]).1⟩

/-! ## RTP resolver lemmas -/

/-- `rtpFamily` only ever produces one of the two family names. -/
theorem rtpFamily_cases (w : String) (exe : Option Nat) :
    rtpFamily w exe = "2000-en" ∨ rtpFamily w exe = "2003-en" := by
  unfold rtpFamily
  split
  · right; rfl
  split
  · left; rfl
  split
  · left; rfl
  · right; rfl

/-- The fallback chain of `get_rtp_fallback` is exactly a first-match
search of the resolved family's preference list. -/
theorem get_rtp_fallback_eq_find (rtps : List (String × String)) (w : String)
    (exe : Option Nat) :
    get_rtp_fallback rtps w exe =
      (familyPref (rtpFamily w exe)).find? (fun u => truthyGet rtps u) := by
  rcases rtpFamily_cases w exe with h | h <;> rw [get_rtp_fallback, familyPref, h]
  · simp only [pref2000en]
    cases h1 : truthyGet rtps "2000-en-don-miguel" <;>
      cases h2 : truthyGet rtps "2000-en-official" <;>
        simp [List.find?, h1, h2]
  · simp only [pref2003en]
    cases h1 : truthyGet rtps "2003-en-rpg-advocate" <;>
      cases h2 : truthyGet rtps "2003-en-maker-universe" <;>
        cases h3 : truthyGet rtps "2003-en-official" <;>
          simp [List.find?, h1, h2, h3]

/-- A requested identifier of the generation-B English family fixes the
family regardless of the executable heuristic. -/
theorem rtpFamily_of_2003 (w : String) (exe : Option Nat)
    (h : pyStartsWith w "2003-en" = true) : rtpFamily w exe = "2003-en" := by
  simp [rtpFamily, h]

/-- A requested identifier of the generation-A English family (and not of
the generation-B one) fixes the family. -/
theorem rtpFamily_of_2000 (w : String) (exe : Option Nat)
    (h : pyStartsWith w "2000-en" = true) (h2 : pyStartsWith w "2003-en" = false) :
    rtpFamily w exe = "2000-en" := by
  simp [rtpFamily, h, h2]

/-- Without a recognised family marker, `rtpFamily` follows the
executable-size heuristic of `get_rm_version`. -/
theorem rtpFamily_heuristic (w : String) (exe : Option Nat)
    (h1 : pyStartsWith w "2000-en" = false) (h2 : pyStartsWith w "2003-en" = false) :
    rtpFamily w exe = (match exe with
      | none => "2003-en"
      | some s => if s ≤ 800000 then "2000-en" else "2003-en") := by
  rw [rtpFamily, h1, h2]
  cases exe with
  | none => rfl
  | some s =>
    by_cases hs : s ≤ 800000
    · have : ¬ (s > 800000) := by omega
      simp [get_rm_version, this, hs]
    · have : s > 800000 := by omega
      simp [get_rm_version, this, hs]

/-- Claim C7: when the requested RTP identifier carries no recognised
family marker, `get_rtp_fallback` infers the family from the main
executable's size: present and at most 800000 bytes gives the 2000-en
family; larger, or absent, gives the 2003-en family — and then searches
that family's preference list. -/
theorem c7_family_size_heuristic (rtps : List (String × String)) (w : String)
    (exe : Option Nat)
    (h1 : pyStartsWith w "2000-en" = false) (h2 : pyStartsWith w "2003-en" = false) :
    get_rtp_fallback rtps w exe =
      (familyPref (match exe with
        | none => "2003-en"
        | some s => if s ≤ 800000 then "2000-en" else "2003-en")).find?
        (fun u => truthyGet rtps u) := by
  rw [get_rtp_fallback_eq_find, rtpFamily_heuristic w exe h1 h2]

/-- Witness for C7: a small executable picks the 2000-en family, a
missing executable the 2003-en family. -/
theorem c7_family_size_heuristic_witness :
    get_rtp_fallback [("2000-en-official", "p")] "easyrpg" (some 700000)
        = some "2000-en-official" ∧
    get_rtp_fallback [("2003-en-official", "p")] "easyrpg" none
        = some "2003-en-official" := by
  have hA := c7_family_size_heuristic [("2000-en-official", "p")] "easyrpg" (some 700000)
    (by decide) (by decide)
  have hB := c7_family_size_heuristic [("2003-en-official", "p")] "easyrpg" none
    (by decide) (by decide)
  refine ⟨?_, ?_⟩
  · rw [hA]; decide
  · rw [hB]; decide

/-! ## Structural lemmas about the staged build -/

/-- Fields of `buildCiaStage` that do not depend on the oracle: the
warnings are passed through unchanged, the resolved identifier is
recorded, and the staging block is marked entered. -/
theorem buildCiaStage_fields (o : ToolOracle) (info : GameInfo) (wanted : String)
    (rtps : List (String × String)) (ws : List Warning) (nm : String) :
    (buildCiaStage o info wanted rtps ws nm).warnings = ws ∧
    (buildCiaStage o info wanted rtps ws nm).resolvedRtp = some wanted ∧
    (buildCiaStage o info wanted rtps ws nm).stagingEntered = true := by
  unfold buildCiaStage
  split
  by_cases h : o.cleanupOk <;> simp [h]

/-- With a succeeding cleanup, `buildCiaStage` returns an ordinary value
and leaves the scratch directory empty. -/
theorem buildCiaStage_cleanup_ok (o : ToolOracle) (info : GameInfo) (wanted : String)
    (rtps : List (String × String)) (ws : List Warning) (nm : String)
    (h : o.cleanupOk = true) :
    (∃ out, (buildCiaStage o info wanted rtps ws nm).result = Except.ok out) ∧
    (buildCiaStage o info wanted rtps ws nm).scratch = [] := by
  unfold buildCiaStage
  split
  simp [h]

/-- Membership in `defaultWarns` of a warning already present. -/
theorem defaultWarns_mem (ws : List Warning) (crcs defaults : AssetCrcs) (x : Warning)
    (h : x ∈ ws) : x ∈ defaultWarns ws crcs defaults := by
  unfold defaultWarns
  split
  · exact List.mem_append_left _ h
  · exact h

/-- A `defaultAssets` warning is in `defaultWarns ws` (for `ws` free of
such warnings) exactly when more than one asset matched a default. -/
theorem defaultWarns_default_iff (ws : List Warning) (crcs defaults : AssetCrcs)
    (hnot : Warning.defaultAssets (default_items crcs defaults) ∉ ws) :
    (Warning.defaultAssets (default_items crcs defaults) ∈ defaultWarns ws crcs defaults) ↔
      1 < (default_items crcs defaults).length := by
  unfold defaultWarns
  split
  · next h => simp [List.mem_append, hnot, h]
  · next h => simp [hnot]; omega

/-- `resolveRtp` never emits a `defaultAssets` warning. -/
theorem resolveRtp_no_default_warning (rtps : List (String × String)) (w : String)
    (no_rtp fpf : Bool) (exe : Option Nat) (l : List String) :
    Warning.defaultAssets l ∉ (resolveRtp rtps w no_rtp fpf exe).2 := by
  unfold resolveRtp preWarnings
  split
  · split <;> split <;> simp
  · split <;> simp

/-- The warnings of `afterResolve` are `defaultWarns` of the incoming
warnings, whichever branch is taken. -/
theorem afterResolve_warnings (o : ToolOracle) (info : GameInfo) (wanted : String)
    (rtps : List (String × String)) (ws : List Warning) (crcs defaults : AssetCrcs)
    (nm : String) :
    (afterResolve o info wanted rtps ws crcs defaults nm).warnings
      = defaultWarns ws crcs defaults := by
  unfold afterResolve
  split
  · rfl
  · exact (buildCiaStage_fields _ _ _ _ _ _).1

/-- `afterResolve` records the resolved RTP identifier. -/
theorem afterResolve_resolvedRtp (o : ToolOracle) (info : GameInfo) (wanted : String)
    (rtps : List (String × String)) (ws : List Warning) (crcs defaults : AssetCrcs)
    (nm : String) :
    (afterResolve o info wanted rtps ws crcs defaults nm).resolvedRtp = some wanted := by
  unfold afterResolve
  split
  · rfl
  · exact (buildCiaStage_fields _ _ _ _ _ _).2.1

/-- With a succeeding cleanup, `afterResolve` returns an ordinary value
and leaves the scratch directory empty. -/
theorem afterResolve_cleanup_ok (o : ToolOracle) (info : GameInfo) (wanted : String)
    (rtps : List (String × String)) (ws : List Warning) (crcs defaults : AssetCrcs)
    (nm : String) (h : o.cleanupOk = true) :
    (∃ out, (afterResolve o info wanted rtps ws crcs defaults nm).result = Except.ok out) ∧
    (afterResolve o info wanted rtps ws crcs defaults nm).scratch = [] := by
  unfold afterResolve
  split
  · exact ⟨⟨_, rfl⟩, rfl⟩
  · exact buildCiaStage_cleanup_ok _ _ _ _ _ _ h

/-- Claim C3: for a requested identifier absent from the catalog (game
not self-contained, bundling not opted out) that carries an English
family marker, when some variant of that family's preference list is in
the catalog, resolution continues with the first present variant in the
fixed order (`find?` on the preference list) and emits the fallback
warning naming the requested and substituted identifiers. -/
theorem c3_fallback_preference_order (rtps : List (String × String)) (info : GameInfo)
    (w fam : String) (crcs defaults : AssetCrcs) (exe : Option Nat) (o : ToolOracle)
    (nm : String)
    (hinfo : info.rtp = some w)
    (hfam : (fam = "2000-en" ∧ pyStartsWith (pyStrip w) "2003-en" = false) ∨ fam = "2003-en")
    (hstart : pyStartsWith (pyStrip w) fam = true)
    (habsent : truthyGet rtps (pyStrip w) = false)
    (hany : (familyPref fam).any (fun u => truthyGet rtps u) = true) :
    ∃ v, (familyPref fam).find? (fun u => truthyGet rtps u) = some v ∧
      (build_cia (some none) info false (some rtps) crcs defaults exe o nm).resolvedRtp = some v ∧
      Warning.rtpFallback (pyStrip w) v ∈
        (build_cia (some none) info false (some rtps) crcs defaults exe o nm).warnings := by
  have hfamEq : rtpFamily (pyStrip w) exe = fam := by
    rcases hfam with ⟨hf, h3⟩ | hf
    · subst hf; exact rtpFamily_of_2000 _ _ hstart h3
    · subst hf; exact rtpFamily_of_2003 _ _ hstart
  have hfb : get_rtp_fallback rtps (pyStrip w) exe
      = (familyPref fam).find? (fun u => truthyGet rtps u) := by
    rw [get_rtp_fallback_eq_find, hfamEq]
  obtain ⟨x, hx, hpx⟩ := List.any_eq_true.mp hany
  rcases hv : (familyPref fam).find? (fun u => truthyGet rtps u) with _ | v
  · exact absurd hpx (by simpa using List.find?_eq_none.mp hv x hx)
  have hw : wantedRtpOf info = pyStrip w := by simp [wantedRtpOf, hinfo]
  have hfpf : fullPackageOf none = false := by decide
  have hres : resolveRtp rtps (wantedRtpOf info) false (fullPackageOf none) exe
      = (Sum.inl v, [Warning.rtpFallback (pyStrip w) v]) := by
    rw [hw, hfpf]
    unfold resolveRtp
    rw [habsent, hfb, hv]
    simp [preWarnings]
  refine ⟨v, rfl, ?_, ?_⟩
  · simp only [build_cia]
    rw [hres]
    exact afterResolve_resolvedRtp _ _ _ _ _ _ _ _
  · simp only [build_cia]
    rw [hres]
    rw [afterResolve_warnings]
    exact defaultWarns_mem _ _ _ _ (by simp)

/-- Witness for C3, the end-to-end scenario: requested
`2003-en-rpg-advocate` absent, `2003-en-maker-universe` present, so the
latter is selected with a fallback warning. -/
theorem c3_fallback_preference_witness :
    (build_cia (some none) ⟨some "A1B2C3", some "Demo", some "A", none, some "2003-en-rpg-advocate"⟩
        false (some [("2003-en-maker-universe", "rtp/mu")]) crcsDistinct crcsDefault
        none oracleAllOk "Demo").resolvedRtp = some "2003-en-maker-universe" ∧
    Warning.rtpFallback "2003-en-rpg-advocate" "2003-en-maker-universe" ∈
      (build_cia (some none) ⟨some "A1B2C3", some "Demo", some "A", none, some "2003-en-rpg-advocate"⟩
        false (some [("2003-en-maker-universe", "rtp/mu")]) crcsDistinct crcsDefault
        none oracleAllOk "Demo").warnings := by
  obtain ⟨v, hv, h1, h2⟩ := c3_fallback_preference_order
    [("2003-en-maker-universe", "rtp/mu")]
    ⟨some "A1B2C3", some "Demo", some "A", none, some "2003-en-rpg-advocate"⟩
    "2003-en-rpg-advocate" "2003-en" crcsDistinct crcsDefault none oracleAllOk "Demo"
    rfl (Or.inr rfl) (by decide) (by decide) (by decide)
  have hveq : v = "2003-en-maker-universe" := by
    have hfind : (familyPref "2003-en").find?
        (fun u => truthyGet [("2003-en-maker-universe", "rtp/mu")] u)
        = some "2003-en-maker-universe" := by decide
    exact (Option.some.inj (hfind.symm.trans hv)).symm
  subst hveq
  have hstrip : pyStrip "2003-en-rpg-advocate" = "2003-en-rpg-advocate" := by decide
  rw [hstrip] at h2
  exact ⟨h1, h2⟩

/-- Claim C4: on any path that reaches the default-asset check (the
resolution step continued with some identifier), the default-assets
warning is emitted exactly when strictly more than one fingerprint
matches a default; a matching metadata-file fingerprint fails the build
before any staging and with no archive written; and a non-matching
metadata file proceeds to staging. -/
theorem c4_default_asset_policy (fpfRaw : Option String) (info : GameInfo) (no_rtp : Bool)
    (rtps : List (String × String)) (crcs defaults : AssetCrcs) (exe : Option Nat)
    (o : ToolOracle) (nm : String) (wanted : String) (ws : List Warning)
    (hres : resolveRtp rtps (wantedRtpOf info) no_rtp (fullPackageOf fpfRaw) exe
      = (Sum.inl wanted, ws)) :
    ((Warning.defaultAssets (default_items crcs defaults) ∈
        (build_cia (some fpfRaw) info no_rtp (some rtps) crcs defaults exe o nm).warnings) ↔
      1 < (default_items crcs defaults).length) ∧
    ((default_items crcs defaults).contains "info" = true →
      (build_cia (some fpfRaw) info no_rtp (some rtps) crcs defaults exe o nm).stagingEntered = false ∧
      (build_cia (some fpfRaw) info no_rtp (some rtps) crcs defaults exe o nm).archiveWritten = false ∧
      (build_cia (some fpfRaw) info no_rtp (some rtps) crcs defaults exe o nm).result
        = Except.ok { success := false, skip := false, game := none }) ∧
    ((default_items crcs defaults).contains "info" = false →
      (build_cia (some fpfRaw) info no_rtp (some rtps) crcs defaults exe o nm).stagingEntered = true) := by
  have hws : Warning.defaultAssets (default_items crcs defaults) ∉ ws := by
    have hn := resolveRtp_no_default_warning rtps (wantedRtpOf info) no_rtp
      (fullPackageOf fpfRaw) exe (default_items crcs defaults)
    rw [hres] at hn
    exact hn
  have hrun : build_cia (some fpfRaw) info no_rtp (some rtps) crcs defaults exe o nm
      = afterResolve o info wanted rtps ws crcs defaults nm := by
    simp only [build_cia]
    rw [hres]
  refine ⟨?_, ?_, ?_⟩
  · rw [hrun, afterResolve_warnings]
    exact defaultWarns_default_iff ws crcs defaults hws
  · intro hc
    rw [hrun]
    unfold afterResolve
    rw [if_pos hc]
    exact ⟨rfl, rfl, rfl⟩
  · intro hc
    rw [hrun]
    unfold afterResolve
    rw [if_neg (by simpa using hc)]
    exact (buildCiaStage_fields _ _ _ _ _ _).2.2

/-- Witness for C4: audio and metadata fingerprints both match defaults,
so a warning is emitted and the build fails before staging. -/
theorem c4_default_asset_policy_witness :
    Warning.defaultAssets ["audio", "info"] ∈
      (build_cia (some (some "1")) ⟨some "A1B2C3", some "Demo", some "A", none, none⟩ false (some [])
        ⟨"AAAAAAAA", "22222222", "33333333", "DDDDDDDD"⟩ crcsDefault none oracleAllOk
        "Demo").warnings ∧
    (build_cia (some (some "1")) ⟨some "A1B2C3", some "Demo", some "A", none, none⟩ false (some [])
        ⟨"AAAAAAAA", "22222222", "33333333", "DDDDDDDD"⟩ crcsDefault none oracleAllOk
        "Demo").stagingEntered = false ∧
    (build_cia (some (some "1")) ⟨some "A1B2C3", some "Demo", some "A", none, none⟩ false (some [])
        ⟨"AAAAAAAA", "22222222", "33333333", "DDDDDDDD"⟩ crcsDefault none oracleAllOk
        "Demo").result = Except.ok { success := false, skip := false, game := none } := by
  have h := c4_default_asset_policy (some "1")
    ⟨some "A1B2C3", some "Demo", some "A", none, none⟩ false []
    ⟨"AAAAAAAA", "22222222", "33333333", "DDDDDDDD"⟩ crcsDefault none oracleAllOk
    "Demo" "" [] (by decide)
  have hd : default_items ⟨"AAAAAAAA", "22222222", "33333333", "DDDDDDDD"⟩ crcsDefault
      = ["audio", "info"] := by decide
  obtain ⟨h1, h2, _⟩ := h
  rw [hd] at h1 h2
  obtain ⟨ha, hb, hc⟩ := h2 (by decide)
  exact ⟨h1.mpr (by decide), ha, hc⟩

/-- Claim C8 (amended): after any per-game build attempt in which the
final `clean_up_tmp_files` itself succeeds — whatever staging or
toolchain step failed or raised beforehand, whether or not a catalog
existed, and whether or not the `[RPG_RT]` section read of line 88
succeeded — the scratch directory holds no leftover files or
directories. -/
theorem c8_cleanup_clears_scratch (rpgRt : Option (Option String)) (info : GameInfo)
    (no_rtp : Bool) (rtp_dirs : Option (List (String × String))) (crcs defaults : AssetCrcs)
    (exe : Option Nat) (o : ToolOracle) (nm : String) (h : o.cleanupOk = true) :
    (build_cia rpgRt info no_rtp rtp_dirs crcs defaults exe o nm).scratch = [] := by
  cases rpgRt with
  | none => rfl
  | some fpfRaw =>
    cases rtp_dirs with
    | none => rfl
    | some rtps =>
      simp only [build_cia]
      rcases hres : resolveRtp rtps (wantedRtpOf info) no_rtp (fullPackageOf fpfRaw) exe
        with ⟨s | u, ws⟩
      · exact (afterResolve_cleanup_ok o info s rtps ws crcs defaults nm h).2
      · rfl

/-- Witness for the amended C8 at a concrete successful build. -/
theorem c8_cleanup_clears_scratch_witness :
    (build_cia (some (some "1")) ⟨some "A1B2C3", some "Demo", some "A", none, none⟩ false (some [])
      crcsDistinct crcsDefault none oracleAllOk "Demo").scratch = [] :=
  c8_cleanup_clears_scratch (some (some "1")) ⟨some "A1B2C3", some "Demo", some "A", none, none⟩
    false (some []) crcsDistinct crcsDefault none oracleAllOk "Demo" rfl

/-- Claim C8 counterexample: when `clean_up_tmp_files` itself fails, the
attempt leaves files in the scratch directory, and although the archive
had been produced successfully, the cleanup exception escapes the
`finally` and replaces (masks) the build outcome. -/
theorem c8_cleanup_failure_leaks_and_masks :
    (build_cia (some (some "1")) ⟨some "A1B2C3", some "Demo", some "A", none, none⟩ false (some [])
        crcsDistinct crcsDefault none oracleNoCleanup "Demo").scratch ≠ [] ∧
    (build_cia (some (some "1")) ⟨some "A1B2C3", some "Demo", some "A", none, none⟩ false (some [])
        crcsDistinct crcsDefault none oracleNoCleanup "Demo").archiveWritten = true ∧
    (build_cia (some (some "1")) ⟨some "A1B2C3", some "Demo", some "A", none, none⟩ false (some [])
        crcsDistinct crcsDefault none oracleNoCleanup "Demo").result
      = Except.error PyError.osError := by
  refine ⟨?_, rfl, rfl⟩
  decide

/-- Claim C1 evidence: with `--no-rtp` passed, or with the game declaring
`FullPackageFlag`, or both, the requested RTP's files are still copied
into the staging tree whenever the requested identifier is present in the
catalog, because line 134 calls `copy_rtp_to_tmp` with the original
`wanted_rtp` unconditionally. -/
theorem c1_rtp_copied_despite_optout :
    (build_cia (some none) ⟨some "A1B2C3", some "Demo", some "A", none, some "2000-jp"⟩ true
        (some [("2000-jp", "rtp/2000-jp")]) crcsDistinct crcsDefault none oracleAllOk
        "Demo").rtpCopied = true ∧
    (build_cia (some (some "1")) ⟨some "A1B2C3", some "Demo", some "A", none, some "2000-jp"⟩ false
        (some [("2000-jp", "rtp/2000-jp")]) crcsDistinct crcsDefault none oracleAllOk
        "Demo").rtpCopied = true ∧
    (build_cia (some (some "1")) ⟨some "A1B2C3", some "Demo", some "A", none, some "2000-jp"⟩ true
        (some [("2000-jp", "rtp/2000-jp")]) crcsDistinct crcsDefault none oracleAllOk
        "Demo").rtpCopied = true := by
  decide

/-- Claim C5 evidence: metadata with a wholly absent author passes
validation (which substitutes the sentinel), but the build then fails:
line 138 evaluates `info.get('author').strip()` on `None`, the
`AttributeError` is swallowed by the bare `except`, and the outcome is a
failed build.  An author key present with an empty value, by contrast,
builds successfully with the `"Unknown author"` sentinel. -/
theorem c5_absent_author_fails_build :
    check_3ds_info ⟨some "A1B2C3", some "Demo", none, none, none⟩ = Except.ok (true, []) ∧
    (build_cia (some (some "1")) ⟨some "A1B2C3", some "Demo", none, none, none⟩ false (some [])
        crcsDistinct crcsDefault none oracleAllOk "Demo").result
      = Except.ok { success := false, skip := false, game := none } ∧
    (build_cia (some (some "1")) ⟨some "A1B2C3", some "Demo", some "", none, none⟩ false (some [])
        crcsDistinct crcsDefault none oracleAllOk "Demo").result
      = Except.ok
          { success := true, skip := false,
            game := some
              { success := true, id := "A1B2C3", safe_name := "Demo", title := "Demo",
                author := "Unknown author", release_date := "", name := "Demo" } } := by
  refine ⟨?_, rfl, rfl⟩
  decide

/-- Claim C6 counterexample: a metadata input whose identifier key is
absent makes `check_3ds_info` raise `KeyError` at `c['cia_id']` instead
of reporting an enumerated diagnostic, so validation is not exception-free
for every metadata input. -/
theorem c6_missing_id_key_raises :
    check_3ds_info ⟨none, some "Demo", none, none, none⟩ = Except.error PyError.keyError := by
  decide

/-- Claim C6 (amended): for every metadata input whose identifier and
title keys are present, validation completes without raising and its
diagnostic enumerates every invalid field in one pass: the invalid-hex
item appears exactly when the identifier is not parseable as base-16, the
invalid-length item exactly when its length differs from 6, and the
invalid-title item exactly when the title is empty — each independently
of the others.  A metadata input with the identifier or title key absent
raises `KeyError` instead (see the counterexample). -/
theorem c6_enumerates_all_invalid_fields (idv title : String) (a r rt : Option String) :
    check_3ds_info ⟨some idv, some title, a, r, rt⟩ =
      Except.ok ((idv.data.length == 6) && pyIntHexValid idv && (title != ""),
        report_no_info_items (idv.data.length == 6) (pyIntHexValid idv) (title != "")
          (authorOf a != "")) ∧
    (("invalid ID (must be hexadecimal)" ∈
        report_no_info_items (idv.data.length == 6) (pyIntHexValid idv) (title != "")
          (authorOf a != "")) ↔ pyIntHexValid idv = false) ∧
    (("invalid ID length (must be 6 characters)" ∈
        report_no_info_items (idv.data.length == 6) (pyIntHexValid idv) (title != "")
          (authorOf a != "")) ↔ (idv.data.length == 6) = false) ∧
    (("invalid title" ∈
        report_no_info_items (idv.data.length == 6) (pyIntHexValid idv) (title != "")
          (authorOf a != "")) ↔ (title != "") = false) := by
  have hauth : (authorOf a != "") = true := by
    unfold authorOf
    cases ha : a.getD "" == "" <;> simp_all
  refine ⟨?_, ?_, ?_, ?_⟩
  · unfold check_3ds_info
    dsimp only
    rw [hauth]
    cases h1 : (idv.data.length == 6) <;> cases h2 : pyIntHexValid idv <;>
      cases h3 : (title != "") <;> rfl
  · rw [hauth]
    cases h1 : (idv.data.length == 6) <;> cases h2 : pyIntHexValid idv <;>
      cases h3 : (title != "") <;> decide
  · rw [hauth]
    cases h1 : (idv.data.length == 6) <;> cases h2 : pyIntHexValid idv <;>
      cases h3 : (title != "") <;> decide
  · rw [hauth]
    cases h1 : (idv.data.length == 6) <;> cases h2 : pyIntHexValid idv <;>
      cases h3 : (title != "") <;> decide

/-- Witness for the amended C6: an identifier that is both of wrong
length and non-hexadecimal produces both id-related reports at once. -/
theorem c6_enumerates_witness :
    check_3ds_info ⟨some "XYZW", some "Demo", none, none, none⟩ =
      Except.ok (false,
        ["invalid ID (must be hexadecimal)", "invalid ID length (must be 6 characters)"]) := by
  have h := (c6_enumerates_all_invalid_fields "XYZW" "Demo" none none none).1
  rw [h]
  decide

/-! ## Batch-loop lemmas -/

/-- With both subscripted keys present, `check_3ds_info` returns an
ordinary value (never raises). -/
theorem check_3ds_info_ok (info : GameInfo) (h1 : info.cia_id.isSome = true)
    (h2 : info.title.isSome = true) :
    ∃ v reps, check_3ds_info info = Except.ok (v, reps) := by
  rcases hc : info.cia_id with _ | idv
  · rw [hc] at h1; simp at h1
  rcases ht : info.title with _ | tv
  · rw [ht] at h2; simp at h2
  unfold check_3ds_info
  rw [hc, ht]
  dsimp only
  split
  · exact ⟨_, _, rfl⟩
  · exact ⟨_, _, rfl⟩

/-- With a present catalog and a succeeding cleanup, `build_cia` always
returns an ordinary value: every exception of the staging block is caught
by the bare `except`. -/
theorem build_cia_result_ok (fpfRaw : Option String) (info : GameInfo) (no_rtp : Bool)
    (rtps : List (String × String)) (crcs defaults : AssetCrcs) (exe : Option Nat)
    (o : ToolOracle) (nm : String) (h : o.cleanupOk = true) :
    ∃ out, (build_cia (some fpfRaw) info no_rtp (some rtps) crcs defaults exe o nm).result
      = Except.ok out := by
  simp only [build_cia]
  rcases hres : resolveRtp rtps (wantedRtpOf info) no_rtp (fullPackageOf fpfRaw) exe
    with ⟨s | u, ws⟩
  · exact (afterResolve_cleanup_ok o info s rtps ws crcs defaults nm h).1
  · exact ⟨_, rfl⟩

/-- The per-candidate side conditions under which no exception can
escape one step of the batch loop: the `[RPG_RT]` section subscript of
line 88 succeeded, the `[metadata]` section exists and its `cia_id` and
`title` subscripts succeed, and `clean_up_tmp_files` succeeds. -/
def candidateSafe (c : Candidate) : Bool :=
  c.rpgRt.isSome &&
    (c.meta.map (fun i => i.cia_id.isSome && i.title.isSome)).getD false &&
    c.oracle.cleanupOk

/-- A candidate satisfying `candidateSafe` is processed to an ordinary
`build` return value. -/
theorem build_ok (defaults : AssetCrcs) (no_rtp : Bool) (rtps : List (String × String))
    (c : Candidate) (h : candidateSafe c = true) :
    ∃ r, build defaults no_rtp (some rtps) c = Except.ok r := by
  unfold candidateSafe at h
  rcases hrg : c.rpgRt with _ | fpfRaw
  · rw [hrg] at h; simp at h
  rcases hm : c.meta with _ | i
  · rw [hm] at h; simp at h
  rw [hrg, hm] at h
  simp at h
  obtain ⟨⟨h1, h2⟩, h3⟩ := h
  unfold build
  split
  · exact ⟨_, rfl⟩
  split
  · exact ⟨_, rfl⟩
  split
  · exact ⟨_, rfl⟩
  rw [hm]
  dsimp only
  obtain ⟨v, reps, hok⟩ := check_3ds_info_ok i h1 h2
  rw [hok]
  dsimp only
  split
  · exact ⟨_, rfl⟩
  obtain ⟨out, hout⟩ := build_cia_result_ok fpfRaw i no_rtp rtps c.crcs defaults
    c.exeSize c.oracle c.name h3
  rw [hrg, hout]
  exact ⟨_, rfl⟩

/-- The batch loop, run from any starting count over `candidateSafe`
candidates, terminates normally with the count of successful builds
added in. -/
theorem batch_count_helper (defaults : AssetCrcs) (no_rtp : Bool)
    (rtps : List (String × String)) :
    ∀ (cs : List Candidate), (∀ c ∈ cs, candidateSafe c = true) →
      ∀ k, build_dir_batch defaults no_rtp (some rtps) cs k =
        Except.ok (k + cs.countP (fun c => buildSucceeded defaults no_rtp (some rtps) c)) := by
  intro cs
  induction cs with
  | nil => intro _ k; simp [build_dir_batch]
  | cons c rest ih =>
    intro h k
    obtain ⟨r, hr⟩ := build_ok defaults no_rtp rtps c (h c (List.mem_cons_self c rest))
    have hrest := ih (fun x hx => h x (List.mem_cons_of_mem c hx))
    unfold build_dir_batch
    rw [hr]
    dsimp only
    rw [hrest]
    have hbs : buildSucceeded defaults no_rtp (some rtps) c
        = (r.map (fun out => out.success)).getD false := by
      unfold buildSucceeded
      rw [hr]
      cases r with
      | none => rfl
      | some out => rfl
    rw [List.countP_cons]
    cases hb : (r.map (fun out => out.success)).getD false <;>
      (simp [hbs, hb, Except.ok.injEq]; try omega)

/-- A fully valid candidate that builds successfully. -/
def candValid : Candidate :=
  ⟨true, true, true, true, true, true, some (some "1"),
    some ⟨some "A1B2C3", some "Demo", some "A", none, none⟩, crcsDistinct, none,
    oracleAllOk, "good"⟩

/-- A candidate whose `gameinfo.cfg` `[metadata]` section has no `cia_id`
key: validation raises `KeyError` at line 321. -/
def candNoIdKey : Candidate :=
  ⟨true, true, true, true, true, true, some none,
    some ⟨none, some "Broken", none, none, none⟩, crcsDistinct, none, oracleAllOk, "bad"⟩

/-- A candidate whose `RPG_RT.ini` read yields no `[RPG_RT]` section
(section absent, or only a lowercase `rpg_rt.ini` that `is_game` accepts
but the case-sensitive read skips): line 88 raises `KeyError`. -/
def candNoRpgRtSection : Candidate :=
  ⟨true, true, true, true, true, true, none,
    some ⟨some "C1B2C3", some "Demo3", some "A", none, none⟩, crcsDistinct, none,
    oracleAllOk, "norpgrt"⟩

/-- A valid candidate whose final `makerom` step fails: a per-game build
failure inside the protected region. -/
def candToolFail : Candidate :=
  ⟨true, true, true, true, true, true, some (some "1"),
    some ⟨some "B1B2C3", some "Demo2", some "A", none, none⟩, crcsDistinct, none,
    oracleMakeromFails, "toolfail"⟩

/-- Claim C2 counterexample: an exception raised while classifying or
validating the first candidate stops the enumeration — both for a
metadata section missing its `cia_id` key (`KeyError` at line 321) and
for an `RPG_RT.ini` whose `[RPG_RT]` section read fails (`KeyError` at
line 88, before the per-game `try`).  The second candidate, which alone
builds and is counted, is never reached and no summary count is
reported. -/
theorem c2_validation_exception_aborts_batch :
    build_dir_batch crcsDefault false (some []) [candNoIdKey, candValid] 0
        = Except.error PyError.keyError ∧
    build_dir_batch crcsDefault false (some []) [candNoRpgRtSection, candValid] 0
        = Except.error PyError.keyError ∧
    build_dir_batch crcsDefault false (some []) [candValid] 0 = Except.ok 1 := by
  refine ⟨rfl, rfl, rfl⟩

/-- Claim C2 (amended): for every batch of candidates on which the three
uncaught per-game read/cleanup operations succeed — the `[RPG_RT]`
section subscript of line 88 (which a section-less or lowercase-only
`RPG_RT.ini` makes raise), the `[metadata]` section with its `cia_id`
and `title` subscripts (lines 320-322), and the final
`clean_up_tmp_files` (line 162) — the loop processes every candidate
independently (failures of classification, staging or the toolchain
inside the protected region are converted to ordinary outcomes) and
reports the count of successful builds.  When any of those operations
fails the batch aborts, as the counterexample shows. -/
theorem c2_batch_independent_amended (defaults : AssetCrcs) (no_rtp : Bool)
    (rtps : List (String × String)) (cs : List Candidate)
    (h : ∀ c ∈ cs, candidateSafe c = true) :
    build_dir_batch defaults no_rtp (some rtps) cs 0 =
      Except.ok (cs.countP (fun c => buildSucceeded defaults no_rtp (some rtps) c)) := by
  have hk := batch_count_helper defaults no_rtp rtps cs h 0
  simpa using hk

/-- Witness for the amended C2: a batch of one succeeding and one
toolchain-failing candidate runs to completion and counts one success. -/
theorem c2_batch_independent_witness :
    build_dir_batch crcsDefault false (some []) [candValid, candToolFail] 0 = Except.ok 1 := by
  have h := c2_batch_independent_amended crcsDefault false [] [candValid, candToolFail]
    (by decide)
  rw [h]
  rfl

/-- Claim C10: a missing RTP catalog root makes `check_rtp` warn and
return `None`; every candidate that passes classification and validation
(and whose `[RPG_RT]` read on line 88 succeeded) then reaches line 98,
whose `rtp_dirs.get(wanted_rtp)` is evaluated first and raises an
uncaught `AttributeError` outside the per-game `try`, so the whole batch
crashes at the first such game whatever follows it. -/
theorem c10_missing_catalog_crashes_first_game (entries : List (String × Bool)) (p : String)
    (defaults : AssetCrcs) (no_rtp : Bool) (c : Candidate) (rest : List Candidate)
    (i : GameInfo) (fpfRaw : Option String)
    (h1 : c.isDir = true) (h2 : c.isGame = true) (h3 : c.hasAudio = true)
    (h4 : c.hasBanner = true) (h5 : c.hasIcon = true) (h6 : c.hasInfo = true)
    (h7 : c.meta = some i) (h8 : check_3ds_info i = Except.ok (true, []))
    (h9 : c.rpgRt = some fpfRaw) :
    (check_rtp false entries p).1 = none ∧ (check_rtp false entries p).2 = true ∧
    build defaults no_rtp none c = Except.error PyError.attributeError ∧
    build_dir_batch defaults no_rtp none (c :: rest) 0 = Except.error PyError.attributeError := by
  have hb : build defaults no_rtp none c = Except.error PyError.attributeError := by
    unfold build
    rw [if_neg (by simp [h1]), if_neg (by simp [h2]), if_neg (by simp [h3, h4, h5, h6]), h7]
    dsimp only
    rw [h8]
    dsimp only
    rw [h9]
    rfl
  refine ⟨rfl, rfl, hb, ?_⟩
  unfold build_dir_batch
  rw [hb]

/-- Witness for C10 at a concrete candidate and catalog root. -/
theorem c10_missing_catalog_witness :
    build crcsDefault false none candValid = Except.error PyError.attributeError ∧
    build_dir_batch crcsDefault false none [candValid, candToolFail] 0
      = Except.error PyError.attributeError := by
  obtain ⟨_, _, ha, hbatch⟩ := c10_missing_catalog_crashes_first_game [("2000-jp", true)]
    "assets/rtp" crcsDefault false candValid [candToolFail]
    ⟨some "A1B2C3", some "Demo", some "A", none, none⟩ (some "1")
    rfl rfl rfl rfl rfl rfl rfl (by decide) rfl
  exact ⟨ha, hbatch⟩
